import Mathlib

/-!
# Verification of the CRM-Co-Pilot front-end utility layer

Shallow embedding of `static/js/main.js` (modal controller, alert
notifier, form validator, request client, date formatters) and proofs
of the behavioural properties claimed for it.

DOM state is modelled explicitly: the document's modal elements as an
association list from element id to the element's `display` style, the
body's `overflow` style as a string, notification elements as a list of
body children, and form fields as records carrying the attributes the
code reads and writes.
-/

namespace CRMCoPilot

/-! ## Modal controller (`showModal`, `hideModal`, global dismissal handlers)

A modal element is identified by its id and carries its current
`style.display` value ("block" when visible, "none" when hidden).  The
page-wide scroll state is `document.body.style.overflow`: "hidden" while
scrolling is locked, "auto" when unlocked. -/

/-- The document state read and written by the modal controller:
the modal elements (id, display-style) and `document.body.style.overflow`. -/
structure ModalDoc where
  modals : List (String × String)
  overflow : String
deriving DecidableEq, Repr

/-- `document.getElementById(id)` restricted to modal elements: the
display style of the element with the given id, if present. -/
def getElementById (st : ModalDoc) (modalId : String) : Option String :=
  (st.modals.find? (fun p => p.1 == modalId)).map Prod.snd

/-- Setting `element.style.display` on the element with the given id. -/
def setDisplay (ms : List (String × String)) (modalId disp : String) :
    List (String × String) :=
  ms.map (fun p => if p.1 = modalId then (p.1, disp) else p)

/-- `showModal(modalId)`: if the element exists, set its display to
"block" and set `document.body.style.overflow = 'hidden'`. -/
def showModal (st : ModalDoc) (modalId : String) : ModalDoc :=
  match getElementById st modalId with
  | some _ => { modals := setDisplay st.modals modalId "block", overflow := "hidden" }
  | none => st

/-- `hideModal(modalId)`: if the element exists, set its display to
"none" and set `document.body.style.overflow = 'auto'`. -/
def hideModal (st : ModalDoc) (modalId : String) : ModalDoc :=
  match getElementById st modalId with
  | some _ => { modals := setDisplay st.modals modalId "none", overflow := "auto" }
  | none => st

/-- The `window.onclick` handler: when the click target is a modal
element (its backdrop), set that element's display to "none" and unlock
scrolling.  `targetIsModal` is `event.target.classList.contains('modal')`. -/
def outsideClick (st : ModalDoc) (targetIsModal : Bool) (targetId : String) : ModalDoc :=
  if targetIsModal then
    { modals := setDisplay st.modals targetId "none", overflow := "auto" }
  else st

/-- The Escape `keydown` handler: set every currently visible modal
(`.modal[style*="block"]`) to display "none", then unconditionally set
`document.body.style.overflow = 'auto'`. -/
def escapeKeydown (st : ModalDoc) : ModalDoc :=
  { modals := st.modals.map (fun p => if p.2 = "block" then (p.1, "none") else p),
    overflow := "auto" }

/-- A modal operation, for reasoning about operation sequences. -/
inductive ModalOp where
  | show (modalId : String)
  | hide (modalId : String)
  | clickOutside (targetIsModal : Bool) (targetId : String)
  | escape
deriving DecidableEq, Repr

/-- Run a sequence of modal operations left to right. -/
def runModalOps (st : ModalDoc) : List ModalOp → ModalDoc
  | [] => st
  | ModalOp.show i :: ops => runModalOps (showModal st i) ops
  | ModalOp.hide i :: ops => runModalOps (hideModal st i) ops
  | ModalOp.clickOutside b i :: ops => runModalOps (outsideClick st b i) ops
  | ModalOp.escape :: ops => runModalOps (escapeKeydown st) ops

/-- Number of visible modals in the document. -/
def visibleCount (st : ModalDoc) : Nat :=
  (st.modals.filter (fun p => p.2 == "block")).length

/-! ## Notifier (`showAlert`)

The relevant body children are the notification elements (class
`alert alert-{type}`, text content the message) and arbitrary other
elements, which `showAlert` never touches. -/

/-- A notification element: its message text and its kind
(the `{type}` part of class `alert alert-{type}`). -/
structure Alert where
  message : String
  kind : String
deriving DecidableEq, Repr

/-- A child of `document.body`: either a notification element
(matched by the `.alert` selector) or any other element. -/
inductive BodyElem where
  | alertElem (a : Alert)
  | otherElem (tag : String)
deriving DecidableEq, Repr

/-- Whether a body child is matched by `querySelectorAll('.alert')`. -/
def isAlertElem : BodyElem → Bool
  | BodyElem.alertElem _ => true
  | BodyElem.otherElem _ => false

/-- `showAlert(message, type = 'success')`: remove every element
matching `.alert`, then append one new alert element carrying the
message and kind.  `type = none` models the omitted argument, which
JavaScript fills with the default `'success'`. -/
def showAlert (body : List BodyElem) (message : String) (type : Option String) :
    List BodyElem :=
  let t := type.getD "success"
  (body.filter (fun e => !isAlertElem e)) ++ [BodyElem.alertElem ⟨message, t⟩]

/-! ## Validator (`validateForm`, `resetFormValidation`)

A form field carries the attributes the two functions read and write:
whether it has the `required` attribute, whether it has class
`form-control`, its value, and its current `style.borderColor`. -/

/-- Model of JavaScript `String.prototype.trim()`: remove leading and
trailing whitespace.  (Defined over the character list so that it is
kernel-reducible; Lean's own `String.trim` is not.) -/
def jsTrim (s : String) : String :=
  String.mk
    (((s.data.dropWhile Char.isWhitespace).reverse.dropWhile
        Char.isWhitespace).reverse)

/-- A form field as seen by the validator. -/
structure Field where
  required : Bool
  formControl : Bool
  value : String
  borderColor : String
deriving DecidableEq, Repr

/-- The `forEach` body of `validateForm` applied to one required field:
mark the border red when the trimmed value is empty, otherwise set the
neutral border colour. -/
def markField (f : Field) : Field :=
  if jsTrim f.value = "" then { f with borderColor := "#de350b" }
  else { f with borderColor := "#dfe1e6" }

/-- `validateForm(formElement)`: iterate `querySelectorAll('[required]')`,
marking each required field and accumulating the `isValid` flag (set to
`false` whenever an empty required field is seen); return the flag
together with the resulting field states. -/
def validateForm (fields : List Field) : Bool × List Field :=
  let requiredFields := fields.filter (fun f => f.required)
  let isValid := requiredFields.foldl
    (fun acc f => if jsTrim f.value = "" then false else acc) true
  (isValid, fields.map (fun f => if f.required then markField f else f))

/-- `resetFormValidation(formElement)`: iterate
`querySelectorAll('.form-control')`, setting the neutral border colour
on each matched field. -/
def resetFormValidation (fields : List Field) : List Field :=
  fields.map (fun f =>
    if f.formControl then { f with borderColor := "#dfe1e6" } else f)

/-! ## Formatter (`formatDate`, `formatRelativeTime`)

A timestamp input is an `Option String`: `none` for an absent
(null/undefined) argument, `some s` for a string argument; both `none`
and the empty string are falsy in the `if (!dateString)` guard.
`new Date(s)` and `toLocaleDateString` are platform calls, passed in as
the parameters `parseMs` (milliseconds since the epoch of the parsed
date) and `render` (the locale rendering). -/

/-- `formatDate(dateString)`: "Not set" for falsy input, otherwise the
locale rendering of the parsed date. -/
def formatDate (dateString : Option String) (parseMs : String → Int)
    (render : Int → String) : String :=
  match dateString with
  | none => "Not set"
  | some s => if s = "" then "Not set" else render (parseMs s)

/-- Milliseconds per day, the divisor `1000 * 60 * 60 * 24`. -/
def msPerDay : Int := 1000 * 60 * 60 * 24

/-- The bucket chain of `formatRelativeTime` applied to the
already-floored whole-day difference `diffDays`.  `Math.floor` of a
quotient of integers is floor division, `Int.fdiv`. -/
def bucketRelative (diffDays : Int) : String :=
  if diffDays = 0 then "Today"
  else if diffDays = 1 then "Yesterday"
  else if diffDays < 7 then toString diffDays ++ " days ago"
  else if diffDays < 30 then toString (diffDays.fdiv 7) ++ " weeks ago"
  else if diffDays < 365 then toString (diffDays.fdiv 30) ++ " months ago"
  else toString (diffDays.fdiv 365) ++ " years ago"

/-- `formatRelativeTime(dateString)`: "Unknown" for falsy input,
otherwise bucket `Math.floor((now - date) / 86400000)`.  `nowMs` is the
current time in milliseconds. -/
def formatRelativeTime (dateString : Option String) (parseMs : String → Int)
    (nowMs : Int) : String :=
  match dateString with
  | none => "Unknown"
  | some s =>
    if s = "" then "Unknown"
    else bucketRelative ((nowMs - parseMs s).fdiv msPerDay)

/-! ## Request client (`makeRequest`)

`makeRequest` builds request options from its `url`/`method`/`data`
arguments and hands them to `fetch`; the claims are about how the
response (or the transport failure) is turned into a result and into
notifications, so the model takes the outcome of the `fetch` call as
input.  A JSON body is modelled by its decoded form when it parses —
an optional string-valued `message` field is the only part the code
reads — and by `none` with the decoder's error message otherwise. -/

/-- A decoded JSON value, as far as `makeRequest` inspects it:
`message` is `some s` when the value is an object with a string
`message` field, `none` otherwise (absent, non-string, or non-object). -/
structure JsonValue where
  message : Option String
deriving DecidableEq, Repr

/-- An HTTP response as read by `makeRequest`: the `ok`/`status`/
`statusText` fields, whether the `content-type` header is present and
includes `application/json`, the raw body text, and the result of
JSON-decoding the body (`none` when decoding fails, in which case
`response.json()` rejects with the message `parseErrMsg`). -/
structure Response where
  ok : Bool
  status : Nat
  statusText : String
  jsonContentType : Bool
  bodyText : String
  parsedJson : Option JsonValue
  parseErrMsg : String
deriving DecidableEq, Repr

/-- The outcome of the `fetch` call: a response, or a rejection
carrying the transport error's message. -/
inductive FetchOutcome where
  | response (r : Response)
  | transportError (msg : String)
deriving DecidableEq, Repr

/-- The decoded payload `makeRequest` returns on success. -/
inductive Payload where
  | jsonPayload (v : JsonValue)
  | textPayload (s : String)
deriving DecidableEq, Repr

/-- The synthesized failure message
`` `HTTP ${response.status}: ${response.statusText}` ``. -/
def httpStatusMsg (r : Response) : String :=
  "HTTP " ++ toString r.status ++ ": " ++ r.statusText

/-- The argument of `new Error(result.message || ...)` when the decoded
result is the JSON value `v`: the `message` field when it is truthy
(present and non-empty), otherwise the synthesized status string. -/
def errorMsgFromJson (v : JsonValue) (r : Response) : String :=
  match v.message with
  | some s => if s = "" then httpStatusMsg r else s
  | none => httpStatusMsg r

/-- `makeRequest`, from the `fetch` outcome on: decode the body as JSON
when the content type says JSON (a decode failure rejects and is caught),
as text otherwise; on `!response.ok` throw an `Error` whose message is
`result.message || \`HTTP ...\``; the `catch` block calls
`showAlert(error.message, 'error')` and re-throws.  The first component
is what the caller sees (`Except.error` = the re-thrown failure), the
second the list of notifications shown. -/
def makeRequest (f : FetchOutcome) : Except String Payload × List Alert :=
  match f with
  | FetchOutcome.transportError m => (Except.error m, [⟨m, "error"⟩])
  | FetchOutcome.response r =>
    if r.jsonContentType then
      match r.parsedJson with
      | none =>
        (Except.error r.parseErrMsg, [⟨r.parseErrMsg, "error"⟩])
      | some v =>
        if r.ok then (Except.ok (Payload.jsonPayload v), [])
        else
          (Except.error (errorMsgFromJson v r), [⟨errorMsgFromJson v r, "error"⟩])
    else
      if r.ok then (Except.ok (Payload.textPayload r.bodyText), [])
      else
        (Except.error (httpStatusMsg r), [⟨httpStatusMsg r, "error"⟩])

/-- A JSON 400 response whose body is the object `{"message": "bad input"}`. -/
def c400Response : Response :=
  { ok := false, status := 400, statusText := "Bad Request",
    jsonContentType := true, bodyText := "\x7b\"message\": \"bad input\"\x7d",
    parsedJson := some ⟨some "bad input"⟩, parseErrMsg := "" }

/-- A non-JSON 500 response with empty body. -/
def c500Response : Response :=
  { ok := false, status := 500, statusText := "Internal Server Error",
    jsonContentType := false, bodyText := "",
    parsedJson := none, parseErrMsg := "" }

/-- A JSON 400 response whose body is the object `{"message": ""}`:
the `message` field is present but empty, hence falsy in JavaScript. -/
def cEmptyMsgResponse : Response :=
  { ok := false, status := 400, statusText := "Bad Request",
    jsonContentType := true, bodyText := "\x7b\"message\": \"\"\x7d",
    parsedJson := some ⟨some ""⟩, parseErrMsg := "" }

/-! ## Helper lemmas -/

/-- The `isValid` accumulator of `validateForm` computes the conjunction
over the list. -/
theorem foldl_isValid_eq_all (l : List Field) (b : Bool) :
    l.foldl (fun acc f => if jsTrim f.value = "" then false else acc) b
      = (b && l.all (fun f => !(jsTrim f.value == ""))) := by
  induction l generalizing b with
  | nil => simp
  | cons f t ih =>
    rw [List.foldl_cons, List.all_cons, ih]
    by_cases h : jsTrim f.value = ""
    · simp [h]
    · have hb : (jsTrim f.value == "") = false := by simpa using h
      simp [h, hb, Bool.and_assoc]

/-- Looking up the updated id after `setDisplay`. -/
theorem find?_setDisplay_self (ms : List (String × String)) (modalId d : String) :
    (setDisplay ms modalId d).find? (fun p => p.1 == modalId)
      = (ms.find? (fun p => p.1 == modalId)).map (fun _ => (modalId, d)) := by
  induction ms with
  | nil => rfl
  | cons hd tl ih =>
    by_cases h : hd.1 = modalId
    · simp [setDisplay, List.find?_cons, h]
    · simp [setDisplay, List.find?_cons, h] at ih ⊢
      simpa [setDisplay] using ih

/-- Length of a string append. -/
theorem string_length_append (a b : String) :
    (a ++ b).length = a.length + b.length := by
  cases a with
  | mk da =>
    cases b with
    | mk db => simp [String.length, String.append]

/-! ## Claim theorems -/

/-- C5: every call to `showAlert` first removes all currently displayed
notification elements and then displays exactly one new element carrying
the given message, so after any call — including two calls in immediate
succession — exactly one notification element is present and it shows
the most recent message; an omitted kind argument defaults to
`success`. -/
theorem C5_showAlert_at_most_one (body : List BodyElem) (m m1 m2 : String)
    (t t1 t2 : Option String) :
    (showAlert body m t).filter isAlertElem
        = [BodyElem.alertElem ⟨m, t.getD "success"⟩]
    ∧ (showAlert (showAlert body m1 t1) m2 t2).filter isAlertElem
        = [BodyElem.alertElem ⟨m2, t2.getD "success"⟩]
    ∧ showAlert body m none = showAlert body m (some "success") := by
  refine ⟨?_, ?_, rfl⟩ <;>
    simp [showAlert, isAlertElem, List.filter_append, List.filter_filter]

/-- C3: on every failure of `makeRequest` (non-success HTTP status,
body-decoding rejection, or transport failure) exactly one notification
is shown, with kind `error` and carrying the failure message, and the
same failure is re-thrown to the caller; on success no notification is
shown.  `makeRequest` never swallows a failure silently and never
notifies without also re-throwing. -/
theorem C3_dual_channel (f : FetchOutcome) :
    (makeRequest f).2
      = (match (makeRequest f).1 with
         | Except.error m => [⟨m, "error"⟩]
         | Except.ok _ => []) := by
  rcases f with r | m
  · by_cases hj : r.jsonContentType <;> by_cases hk : r.ok <;>
      rcases hp : r.parsedJson with _ | v <;>
      simp [makeRequest, hj, hk, hp]
  · rfl

/-- C6: `validateForm` returns the conjunction over all required fields
of "trimmed value is non-empty", marks exactly the required fields whose
trimmed value is empty with the error border colour, sets the neutral
border colour on required fields whose trimmed value is non-empty, and
leaves non-required fields unmodified; on a form with one empty and one
filled required field it returns `false` with only the empty field
marked invalid. -/
theorem C6_validateForm (fields : List Field) :
    (validateForm fields).1
        = (fields.filter (fun f => f.required)).all
            (fun f => !(jsTrim f.value == ""))
    ∧ List.Forall₂ (fun f g =>
        (f.required = true → jsTrim f.value = "" →
            g = { f with borderColor := "#de350b" })
        ∧ (f.required = true → jsTrim f.value ≠ "" →
            g = { f with borderColor := "#dfe1e6" })
        ∧ (f.required = false → g = f))
        fields (validateForm fields).2
    ∧ validateForm
        [⟨true, true, "", "#dfe1e6"⟩, ⟨true, true, "filled", "#dfe1e6"⟩]
        = (false, [⟨true, true, "", "#de350b"⟩, ⟨true, true, "filled", "#dfe1e6"⟩]) := by
  refine ⟨?_, ?_, by decide⟩
  · simpa [validateForm] using
      foldl_isValid_eq_all (fields.filter (fun f => f.required)) true
  · have : (validateForm fields).2
        = fields.map (fun f => if f.required then markField f else f) := rfl
    rw [this, List.forall₂_map_right_iff, List.forall₂_same]
    intro f _
    refine ⟨fun hr he => ?_, fun hr he => ?_, fun hr => ?_⟩
    · simp [hr, markField, he]
    · simp [hr, markField, he]
    · simp [hr]

/-- C7 (amended): `resetFormValidation` sets the neutral border colour
on every field carrying the `form-control` class, regardless of the
field's current validity or marking, and leaves fields without that
class unmodified. -/
theorem C7_reset_clears_formControl (fields : List Field) :
    List.Forall₂ (fun f g =>
        (f.formControl = true → g = { f with borderColor := "#dfe1e6" })
        ∧ (f.formControl = false → g = f))
      fields (resetFormValidation fields) := by
  rw [resetFormValidation, List.forall₂_map_right_iff, List.forall₂_same]
  intro f _
  refine ⟨fun hc => ?_, fun hc => ?_⟩ <;> simp [hc]

/-- Witness for C6 at a concrete one-field form with a
whitespace-only required value. -/
theorem C6_witness :
    (validateForm [⟨true, true, " ", "#dfe1e6"⟩]).1
      = (([⟨true, true, " ", "#dfe1e6"⟩] : List Field).filter
          (fun f => f.required)).all (fun f => !(jsTrim f.value == "")) :=
  (C6_validateForm [⟨true, true, " ", "#dfe1e6"⟩]).1

/-- Witness for C7 at a concrete previously-marked `form-control`
field. -/
theorem C7_witness :
    List.Forall₂ (fun f g =>
        (f.formControl = true → g = { f with borderColor := "#dfe1e6" })
        ∧ (f.formControl = false → g = f))
      [⟨false, true, "x", "#de350b"⟩]
      (resetFormValidation [⟨false, true, "x", "#de350b"⟩]) :=
  C7_reset_clears_formControl [⟨false, true, "x", "#de350b"⟩]

/-- C7 counterexample: a required field that lacks the `form-control`
class is marked invalid by `validateForm` but is not cleared by
`resetFormValidation`, refuting "every field that validate could have
marked invalid is cleared". -/
theorem C7_counterexample :
    (validateForm [⟨true, false, "", "#dfe1e6"⟩]).2
        = [⟨true, false, "", "#de350b"⟩]
    ∧ resetFormValidation [⟨true, false, "", "#de350b"⟩]
        = [⟨true, false, "", "#de350b"⟩]
    ∧ ("#de350b" : String) ≠ "#dfe1e6" := by decide

/-- C1: the claimed invariant "the page scroll-lock is released only
when zero modals are visible" fails on the code: starting from a
document holding hidden modals `a` and `b` with scrolling unlocked, the
operation sequence `show a`, `show b`, `hide a` leaves modal `b` visible
(`visibleCount = 1`) yet `hideModal` has set
`document.body.style.overflow` back to `'auto'`, i.e. scrolling is
unlocked while a modal is still visible. -/
theorem C1_premature_unlock :
    getElementById
        (runModalOps ⟨[("a", "none"), ("b", "none")], "auto"⟩
          [ModalOp.show "a", ModalOp.show "b", ModalOp.hide "a"]) "b"
        = some "block"
    ∧ visibleCount
        (runModalOps ⟨[("a", "none"), ("b", "none")], "auto"⟩
          [ModalOp.show "a", ModalOp.show "b", ModalOp.hide "a"]) = 1
    ∧ (runModalOps ⟨[("a", "none"), ("b", "none")], "auto"⟩
          [ModalOp.show "a", ModalOp.show "b", ModalOp.hide "a"]).overflow
        = "auto" := by decide

/-- C8: for every modal id present in the document, `showModal id`
transitions that modal to visible and engages the scroll-lock, and a
subsequent `hideModal id` transitions it back to hidden and sets scroll
to unlocked; when the page was unlocked before the `show`, this returns
the page to its pre-show scroll state. -/
theorem C8_show_hide_roundtrip (st : ModalDoc) (modalId : String)
    (h : (getElementById st modalId).isSome = true) :
    getElementById (showModal st modalId) modalId = some "block"
    ∧ (showModal st modalId).overflow = "hidden"
    ∧ getElementById (hideModal (showModal st modalId) modalId) modalId = some "none"
    ∧ (hideModal (showModal st modalId) modalId).overflow = "auto"
    ∧ (st.overflow = "auto" →
        (hideModal (showModal st modalId) modalId).overflow = st.overflow) := by
  obtain ⟨d, hd⟩ := Option.isSome_iff_exists.mp h
  obtain ⟨p, hp, -⟩ := Option.map_eq_some'.mp hd
  have hshow : showModal st modalId
      = ⟨setDisplay st.modals modalId "block", "hidden"⟩ := by
    unfold showModal
    rw [hd]
  have hfind1 : (showModal st modalId).modals.find? (fun q => q.1 == modalId)
      = some (modalId, "block") := by
    rw [hshow, find?_setDisplay_self, hp]
    rfl
  have hget1 : getElementById (showModal st modalId) modalId = some "block" := by
    unfold getElementById
    rw [hfind1]
    rfl
  have hhide : hideModal (showModal st modalId) modalId
      = ⟨setDisplay (showModal st modalId).modals modalId "none", "auto"⟩ := by
    unfold hideModal
    rw [hget1]
  have hfind2 : (setDisplay (showModal st modalId).modals modalId "none").find?
      (fun q => q.1 == modalId) = some (modalId, "none") := by
    rw [find?_setDisplay_self, hfind1]
    rfl
  have hget2 : getElementById (hideModal (showModal st modalId) modalId) modalId
      = some "none" := by
    unfold getElementById
    rw [hhide]
    rw [hfind2]
    rfl
  refine ⟨hget1, by rw [hshow], hget2, by rw [hhide], fun ha => by rw [hhide, ha]⟩

/-- Witness for C8 at a concrete one-modal document. -/
theorem C8_witness :
    (getElementById ⟨[("m", "none")], "auto"⟩ "m").isSome = true
    ∧ getElementById (showModal ⟨[("m", "none")], "auto"⟩ "m") "m" = some "block"
    ∧ (showModal ⟨[("m", "none")], "auto"⟩ "m").overflow = "hidden"
    ∧ getElementById (hideModal (showModal ⟨[("m", "none")], "auto"⟩ "m") "m") "m"
        = some "none"
    ∧ (hideModal (showModal ⟨[("m", "none")], "auto"⟩ "m") "m").overflow = "auto" := by
  have h := C8_show_hide_roundtrip ⟨[("m", "none")], "auto"⟩ "m" (by decide)
  exact ⟨by decide, h.1, h.2.1, h.2.2.1, h.2.2.2.1⟩

/-- C9: for every empty or absent timestamp input, `formatDate` returns
exactly the sentinel "Not set" and `formatRelativeTime` returns exactly
the sentinel "Unknown". -/
theorem C9_falsy_sentinels (dateString : Option String)
    (parseMs : String → Int) (render : Int → String) (nowMs : Int)
    (h : dateString = none ∨ dateString = some "") :
    formatDate dateString parseMs render = "Not set"
    ∧ formatRelativeTime dateString parseMs nowMs = "Unknown" := by
  rcases h with rfl | rfl <;> exact ⟨rfl, rfl⟩

/-- Witness for C9 at the empty string input. -/
theorem C9_witness :
    ((some "" : Option String) = none ∨ (some "" : Option String) = some "")
    ∧ formatDate (some "") (fun _ => 0) (fun _ => "rendered") = "Not set"
    ∧ formatRelativeTime (some "") (fun _ => 0) 0 = "Unknown" :=
  ⟨Or.inr rfl,
   C9_falsy_sentinels (some "") (fun _ => 0) (fun _ => "rendered") 0 (Or.inr rfl)⟩

/-- C4: for every non-empty timestamp exactly `n` whole days before
now (`n ≥ 0`), `formatRelativeTime` returns "Today" for `n = 0`,
"Yesterday" for `n = 1`, "`n` days ago" for `2 ≤ n ≤ 6`,
"`⌊n/7⌋` weeks ago" for `7 ≤ n ≤ 29`, "`⌊n/30⌋` months ago" for
`30 ≤ n ≤ 364`, and "`⌊n/365⌋` years ago" for `n ≥ 365`. -/
theorem C4_relative_buckets (s : String) (parseMs : String → Int)
    (nowMs n : Int) (hs : s ≠ "") (hn : 0 ≤ n)
    (hp : parseMs s = nowMs - n * msPerDay) :
    formatRelativeTime (some s) parseMs nowMs
      = (if n = 0 then "Today"
         else if n = 1 then "Yesterday"
         else if n ≤ 6 then toString n ++ " days ago"
         else if n ≤ 29 then toString (n.fdiv 7) ++ " weeks ago"
         else if n ≤ 364 then toString (n.fdiv 30) ++ " months ago"
         else toString (n.fdiv 365) ++ " years ago") := by
  have hms : (msPerDay : Int) ≠ 0 := by norm_num [msPerDay]
  have hfd : (nowMs - parseMs s).fdiv msPerDay = n := by
    rw [hp]
    have hcancel : nowMs - (nowMs - n * msPerDay) = n * msPerDay := by ring
    rw [hcancel, Int.mul_fdiv_cancel _ hms]
  show (if s = "" then "Unknown"
        else bucketRelative ((nowMs - parseMs s).fdiv msPerDay)) = _
  rw [if_neg hs, hfd]
  unfold bucketRelative
  split_ifs <;> first | rfl | omega

/-- Witness for C4 at `n = 10` days before now ("1 weeks ago", as the
claim states, including the plural for the value 1). -/
theorem C4_witness :
    ("d" : String) ≠ "" ∧ (0 : Int) ≤ 10
    ∧ ((fun _ : String => (0 : Int)) "d" = 10 * msPerDay - 10 * msPerDay)
    ∧ formatRelativeTime (some "d") (fun _ => (0 : Int)) (10 * msPerDay)
        = "1 weeks ago" :=
  ⟨by decide, by decide, by decide,
   (C4_relative_buckets "d" (fun _ => (0 : Int)) (10 * msPerDay) 10
      (by decide) (by decide) (by decide)).trans (by decide)⟩

/-- C10: for every non-empty timestamp strictly in the future, the
whole-day difference `⌊(now − date) / 86400000⌋` is at most `−1`, so
`formatRelativeTime` never returns "Today" for such input and instead
takes the "days ago" branch, returning the negative day count. -/
theorem C10_future_negative (s : String) (parseMs : String → Int)
    (nowMs : Int) (hs : s ≠ "") (hf : nowMs < parseMs s) :
    (nowMs - parseMs s).fdiv msPerDay ≤ -1
    ∧ formatRelativeTime (some s) parseMs nowMs
        = toString ((nowMs - parseMs s).fdiv msPerDay) ++ " days ago"
    ∧ formatRelativeTime (some s) parseMs nowMs ≠ "Today" := by
  have hneg : nowMs - parseMs s < 0 := by omega
  have hdpos : (0 : Int) < msPerDay := by norm_num [msPerDay]
  have hlt : (nowMs - parseMs s).fdiv msPerDay < 0 := Int.fdiv_neg' hneg hdpos
  have hle : (nowMs - parseMs s).fdiv msPerDay ≤ -1 := by omega
  have heq : formatRelativeTime (some s) parseMs nowMs
      = toString ((nowMs - parseMs s).fdiv msPerDay) ++ " days ago" := by
    show (if s = "" then "Unknown"
          else bucketRelative ((nowMs - parseMs s).fdiv msPerDay)) = _
    rw [if_neg hs]
    unfold bucketRelative
    rw [if_neg (by omega), if_neg (by omega), if_pos (by omega)]
  refine ⟨hle, heq, ?_⟩
  rw [heq]
  intro hcon
  have hlen := congrArg String.length hcon
  rw [string_length_append] at hlen
  have h9 : (" days ago" : String).length = 9 := rfl
  have h5 : ("Today" : String).length = 5 := rfl
  rw [h9, h5] at hlen
  omega

/-- Witness for C10 at a timestamp one hour in the future
("-1 days ago"). -/
theorem C10_witness :
    ("d" : String) ≠ "" ∧ (0 : Int) < (fun _ : String => (3600000 : Int)) "d"
    ∧ formatRelativeTime (some "d") (fun _ => (3600000 : Int)) 0
        = "-1 days ago" :=
  ⟨by decide, by decide,
   ((C10_future_negative "d" (fun _ => (3600000 : Int)) 0 (by decide)
      (by decide)).2.1).trans (by decide)⟩

/-- C2 counterexample: for a JSON 400 response whose payload has the
`message` field present but equal to the empty string, the claim as
stated says the failure text is that field's value "", but
`makeRequest` synthesizes "HTTP 400: Bad Request" instead, because
JavaScript's `result.message || ...` skips the falsy empty string. -/
theorem C2_counterexample :
    cEmptyMsgResponse.ok = false
    ∧ cEmptyMsgResponse.parsedJson = some ⟨some ""⟩
    ∧ (makeRequest (FetchOutcome.response cEmptyMsgResponse)).1
        = Except.error "HTTP 400: Bad Request"
    ∧ ("HTTP 400: Bad Request" : String) ≠ "" :=
  ⟨rfl, rfl, rfl, by decide⟩

/-- C2 (amended): on failure, `makeRequest` surfaces exactly one
failure value whose message is the `message` field of the JSON error
payload when that field is present with a non-empty value; otherwise
the synthesized "HTTP {status}: {statusText}" string (likewise for
non-JSON bodies); and for a transport failure, the transport error's
own message.  In particular a non-JSON 500 response with empty body
surfaces exactly "HTTP {status}: {statusText}", and a JSON 400 response
`{message: "bad input"}` surfaces exactly "bad input". -/
theorem C2_failure_messages (r : Response) (m s : String) (v : JsonValue) :
    ((makeRequest (FetchOutcome.transportError m)).1 = Except.error m)
    ∧ (r.ok = false → r.jsonContentType = true → r.parsedJson = some v →
        v.message = some s → s ≠ "" →
        (makeRequest (FetchOutcome.response r)).1 = Except.error s)
    ∧ (r.ok = false → r.jsonContentType = true → r.parsedJson = some v →
        (v.message = none ∨ v.message = some "") →
        (makeRequest (FetchOutcome.response r)).1
          = Except.error (httpStatusMsg r))
    ∧ (r.ok = false → r.jsonContentType = false →
        (makeRequest (FetchOutcome.response r)).1
          = Except.error (httpStatusMsg r)) := by
  refine ⟨rfl, ?_, ?_, ?_⟩
  · intro hok hj hp hm hs
    simp [makeRequest, hok, hj, hp, errorMsgFromJson, hm, hs]
  · intro hok hj hp hm
    rcases hm with hm | hm <;>
      simp [makeRequest, hok, hj, hp, errorMsgFromJson, hm]
  · intro hok hj
    simp [makeRequest, hok, hj]

/-- Witness for C2 at the two responses named by the claim: the JSON
400 `{message: "bad input"}` response and the non-JSON 500 response
with empty body. -/
theorem C2_witness :
    c400Response.ok = false ∧ c400Response.jsonContentType = true
    ∧ c400Response.parsedJson = some ⟨some "bad input"⟩
    ∧ ("bad input" : String) ≠ ""
    ∧ (makeRequest (FetchOutcome.response c400Response)).1
        = Except.error "bad input"
    ∧ c500Response.ok = false ∧ c500Response.jsonContentType = false
    ∧ (makeRequest (FetchOutcome.response c500Response)).1
        = Except.error "HTTP 500: Internal Server Error" :=
  ⟨rfl, rfl, rfl, by decide,
   (C2_failure_messages c400Response "" "bad input" ⟨some "bad input"⟩).2.1
      rfl rfl rfl rfl (by decide),
   rfl, rfl,
   ((C2_failure_messages c500Response "" "" ⟨none⟩).2.2.2 rfl rfl).trans
      (congrArg Except.error rfl)⟩

end CRMCoPilot
